import Mathlib

/-!
Verification development for the BRecSys fairness re-ranking pipeline.

The pipeline re-ranks per-user recommendation scores into fixed-size lists under
group-fairness constraints.  Scores are kept as exact rationals (the LP model and
the discrete metrics) or reals (the logarithmic metrics); matrices are embedded as
total functions on dense indices, dictionaries as functions with the dictionary's
default, Python exceptions as `Except`.
-/

namespace BrecSys

/-- Run-configuration constant: number of user groups (active / inactive). -/
def no_user_groups : ℕ := 2

/-- Run-configuration constant: number of item groups (short-head / long-tail). -/
def no_item_groups : ℕ := 2

/-- The integer nearest to `y`, ties to the even integer (the rounding Python's
builtin `round` performs after scaling). -/
def pyRound2_int (y : ℚ) : ℤ :=
  if y - ⌊y⌋ < 1 / 2 then ⌊y⌋
  else if 1 / 2 < y - ⌊y⌋ then ⌊y⌋ + 1
  else if ⌊y⌋ % 2 = 0 then ⌊y⌋ else ⌊y⌋ + 1

/-- Python `round(x, 2)`: round to the nearest multiple of 1/100, ties to the
even multiple (banker's rounding), on exact rationals. -/
def pyRound2 (x : ℚ) : ℚ :=
  (pyRound2_int (x * 100) : ℚ) / 100

/-- `catalog_coverage(predicted, catalog)`: flatten the per-user selected lists,
count distinct selected items, and report the percentage of the catalog covered,
rounded to two decimals. -/
def catalog_coverage (predicted : List (List ℕ)) (catalog : Finset ℕ) : ℚ :=
  let predicted_flattened := predicted.join
  let L_predictions : ℕ := predicted_flattened.toFinset.card
  pyRound2 ((L_predictions : ℚ) / ((catalog.card : ℚ) * 1) * 100)

/-- Per-item term of `novelty`: `-log2(pop[item]/u)` when the item is in the
popularity dictionary, `0` otherwise (the `else` branch of the source). -/
noncomputable def item_novelty_value (pop : ℕ → Option ℕ) (u : ℕ) (item : ℕ) : ℝ :=
  match pop item with
  | some cnt => -Real.logb 2 ((cnt : ℝ) / (u : ℝ))
  | none => 0

/-- `novelty(predicted, pop, u, k)`: accumulate the self-information of each
predicted item (items absent from `pop` contribute 0) and divide by `k`. -/
noncomputable def novelty (predicted : List ℕ) (pop : ℕ → Option ℕ) (u k : ℕ) : ℝ :=
  (predicted.foldl (fun acc item => acc + item_novelty_value pop u item) 0) / (k : ℝ)

/-- `precisionk(actual, predicted)`: `len(set(actual) & set(predicted)) / len(predicted)`.
Python raises `ZeroDivisionError` when `predicted` is empty; embedded as `Except`. -/
def precisionk (actual : Finset ℕ) (predicted : List ℕ) : Except String ℚ :=
  if predicted.length = 0 then Except.error "ZeroDivisionError"
  else Except.ok (((actual ∩ predicted.toFinset).card : ℚ) / (predicted.length : ℚ))

/-- `recallk(actual, predicted)`: `len(set(actual) & set(predicted)) / len(actual)`.
Python raises `ZeroDivisionError` when `actual` is empty; embedded as `Except`. -/
def recallk (actual : Finset ℕ) (predicted : List ℕ) : Except String ℚ :=
  if actual.card = 0 then Except.error "ZeroDivisionError"
  else Except.ok (((actual ∩ predicted.toFinset).card : ℚ) / (actual.card : ℚ))

/-- `ndcgk(actual, predicted)`: `dcg = 1 if predicted[0] in actual else 0`, then for the
tail item at enumerate-index `i` add `1/log(i+2)` to `dcg` when relevant and always to
`idcg` (which starts at 1).  `predicted[0]` raises `IndexError` on an empty list. -/
noncomputable def ndcgk (actual : Finset ℕ) (predicted : List ℕ) : Except String ℝ :=
  match predicted with
  | [] => Except.error "IndexError"
  | p0 :: rest =>
    let dcg0 : ℝ := if p0 ∈ actual then 1 else 0
    let step := fun (acc : ℝ × ℝ × ℕ) (p : ℕ) =>
      ((if p ∈ actual then acc.1 + 1 / Real.log (acc.2.2 + 2) else acc.1),
       acc.2.1 + 1 / Real.log (acc.2.2 + 2), acc.2.2 + 1)
    let res := rest.foldl step (dcg0, 1, 0)
    Except.ok (res.1 / res.2.1)

/-- Per-user body of `metric_per_group` / `metric_on_all`: the selected items of a
user are the `P[uid][j]` with `W[uid][j] == 1`, over the literal slot range 50. -/
def selected_items (W : ℕ → ℕ → ℚ) (P : ℕ → ℕ → ℕ) (uid : ℕ) : List ℕ :=
  ((List.range 50).filter (fun j => W uid j = 1)).map (fun j => P uid j)

/-- Per-user computation of `metric_per_group`: a user is processed iff it is a key
of `ground_truth` (the only guard in the source); then NDCG, precision and recall
are computed on the selected list, each able to raise. -/
noncomputable def metric_per_group_user (ground_truth : ℕ → Finset ℕ)
    (gt_keys : Finset ℕ) (W : ℕ → ℕ → ℚ) (P : ℕ → ℕ → ℕ) (uid : ℕ) :
    Option (Except String (ℝ × ℚ × ℚ)) :=
  if uid ∈ gt_keys then
    let predicted := selected_items W P uid
    some (do
      let ndcg ← ndcgk (ground_truth uid) predicted
      let pre ← precisionk (ground_truth uid) predicted
      let rec10 ← recallk (ground_truth uid) predicted
      pure (ndcg, pre, rec10))
  else none

/-- `load_ranking_matrices` top candidates: indices of the `topk` largest scores
(not needed by the resolved claims beyond its output `P`, kept abstract). -/
def load_ground_truth_index (total_users topk : ℕ) (P : ℕ → ℕ → ℕ)
    (train_checkins : ℕ → Finset ℕ) : ℕ → ℕ → ℚ :=
  fun uid j =>
    if uid < total_users ∧ j < topk ∧ P uid j ∈ train_checkins uid then 1 else 0

/-- `read_item_index(total_users, topk, no_item_groups)`: the candidate item-group
indicator.  A candidate in the short-head set gets group 0; otherwise (`elif`) a
candidate in the long-tail set gets group 1; otherwise the row stays all zero. -/
def read_item_index (total_users topk : ℕ) (P : ℕ → ℕ → ℕ)
    (shorthead_item_ids longtail_item_ids : Finset ℕ) : ℕ → ℕ → ℕ → ℚ :=
  fun uid lid g =>
    if uid < total_users ∧ lid < topk then
      if P uid lid ∈ shorthead_item_ids then (if g = 0 then 1 else 0)
      else if P uid lid ∈ longtail_item_ids then (if g = 1 then 1 else 0)
      else 0
    else 0

/-- A raw interaction line `(user_id, item_id, rating)` before id translation. -/
def RawLine : Type := String × String × String

/-- Whether both ids of a line are present in the id maps. -/
def line_known (uid_map iid_map : String → Option ℕ) (line : RawLine) : Prop :=
  (uid_map line.1).isSome = true ∧ (iid_map line.2.1).isSome = true

instance (uid_map iid_map : String → Option ℕ) (line : RawLine) :
    Decidable (line_known uid_map iid_map line) :=
  instDecidableAnd

/-- One line of `read_train_data`: `uid_map[uid]` then `iid_map[iid]` are looked up
unconditionally (raising `KeyError` on a miss), the item's popularity counter is
incremented and the item is added to the user's check-in set. -/
def read_train_step (uid_map iid_map : String → Option ℕ)
    (st : (ℕ → Finset ℕ) × (ℕ → ℕ)) (line : RawLine) :
    Except String ((ℕ → Finset ℕ) × (ℕ → ℕ)) :=
  match uid_map line.1 with
  | none => Except.error "KeyError uid"
  | some uid =>
    match iid_map line.2.1 with
    | none => Except.error "KeyError iid"
    | some iid =>
      Except.ok
        (Function.update st.1 uid (insert iid (st.1 uid)),
         Function.update st.2 iid (st.2 iid + 1))

/-- `read_train_data(train_file)`: fold the lines through `read_train_step`,
starting from the empty check-in dictionary and zero popularity counter. -/
def read_train_data (uid_map iid_map : String → Option ℕ) (lines : List RawLine) :
    Except String ((ℕ → Finset ℕ) × (ℕ → ℕ)) :=
  lines.foldlM (read_train_step uid_map iid_map) (fun _ => ∅, fun _ => 0)

/-- `read_ground_truth(test_file)`: a line is translated and added only when both
ids are in the id maps (`if uid in ... and iid in ...`); unknown lines are skipped. -/
def read_ground_truth (uid_map iid_map : String → Option ℕ) (lines : List RawLine) :
    ℕ → Finset ℕ :=
  lines.foldl
    (fun gt line =>
      match uid_map line.1, iid_map line.2.1 with
      | some uid, some iid => Function.update gt uid (insert iid (gt uid))
      | _, _ => gt)
    (fun _ => ∅)

/-- `read_user_groups(user_group_fpath, gid)`: collect the ids found in the id map
(unknown ids are skipped) and set `U[uid][gid] = 1` for each. -/
def read_user_groups (uid_map : String → Option ℕ) (lines : List String) (gid : ℕ)
    (U : ℕ → ℕ → ℚ) : Finset ℕ × (ℕ → ℕ → ℚ) :=
  lines.foldl
    (fun st l =>
      match uid_map l with
      | some uid => (insert uid st.1, fun u g => if u = uid ∧ g = gid then 1 else st.2 u g)
      | none => st)
    (∅, U)

/-- Fairness modes of `fairness_optimisation` (the string parameter `fairness`). -/
inductive FairMode
  | N
  | C
  | P
  | CP

/-- The solver variables of one `fairness_optimisation` call (every `add_var`). -/
structure FairnessVars where
  W : ℕ → ℕ → ℚ
  user_dcg : ℕ → ℚ
  user_ndcg : ℕ → ℚ
  group_ndcg_v : ℕ → ℚ
  item_group : ℕ → ℚ
  user_precision : ℕ → ℚ
  group_precision : ℕ → ℚ
  user_recall : ℕ → ℚ
  group_recall : ℕ → ℚ

/-- The hard-coded ideal-DCG constant `user_idcg_i = 7.137938133620551`. -/
def user_idcg_i : ℚ := 7137938133620551 / 1000000000000000

/-- The objective of `fairness_optimisation`, per fairness mode.  In every mode the
score term is `S[i][j] * W[i][j]`, indexed by the slot position `j` itself. -/
def fairness_objective (fairness : FairMode) (uepsilon iepsilon : ℚ)
    (total_users topk : ℕ) (S W : ℕ → ℕ → ℚ)
    (group_ndcg_v item_group : ℕ → ℚ) : ℚ :=
  match fairness with
  | FairMode.N =>
      ∑ i in Finset.range total_users, ∑ j in Finset.range topk, S i j * W i j
  | FairMode.C =>
      (∑ i in Finset.range total_users, ∑ j in Finset.range topk, S i j * W i j)
        - uepsilon * (group_ndcg_v 1 - group_ndcg_v 0)
  | FairMode.P =>
      (∑ i in Finset.range total_users, ∑ j in Finset.range topk, S i j * W i j)
        - iepsilon * (item_group 0 - item_group 1)
  | FairMode.CP =>
      (∑ i in Finset.range total_users, ∑ j in Finset.range topk, S i j * W i j)
        - uepsilon * (group_ndcg_v 1 - group_ndcg_v 0)
        - iepsilon * (item_group 0 - item_group 1)

/-- Modelled from the spec: the mode-N objective the specification prescribes,
`sum of S[i][P[i][j]] * W[i][j]` — the score indexed by the item id at slot `j`.
Stated only to be compared with `fairness_objective`. -/
def objective_N_spec (total_users topk : ℕ) (S : ℕ → ℕ → ℚ) (P : ℕ → ℕ → ℕ)
    (W : ℕ → ℕ → ℚ) : ℚ :=
  ∑ i in Finset.range total_users, ∑ j in Finset.range topk, S i (P i j) * W i j

/-- The constraint system of `fairness_optimisation` (identical in all four
modes; the mode only selects the objective):
cardinality rows `= 10`, the gain/precision/recall accounting rows, the
group-aggregation rows, the item-group exposure rows, the explicit `W ≤ 1`
constraints and the `add_var()` default lower bound `0`. -/
def FairnessConstraints (total_users topk : ℕ) (Ahelp : ℕ → ℕ → ℚ)
    (Ihelp : ℕ → ℕ → ℕ → ℚ) (U : ℕ → ℕ → ℚ) (train_checkins : ℕ → Finset ℕ)
    (v : FairnessVars) : Prop :=
  (∀ i ∈ Finset.range total_users, ∑ j in Finset.range topk, v.W i j = 10) ∧
  (∀ i ∈ Finset.range total_users,
    v.user_dcg i = ∑ j in Finset.range topk, v.W i j * Ahelp i j ∧
    v.user_ndcg i = v.user_dcg i / user_idcg_i ∧
    v.user_precision i = (∑ j in Finset.range topk, v.W i j * Ahelp i j) / 10 ∧
    v.user_recall i = (∑ j in Finset.range topk, v.W i j * Ahelp i j) /
      ((train_checkins i).card : ℚ)) ∧
  (∀ g ∈ Finset.range no_user_groups,
    v.group_ndcg_v g = ∑ i in Finset.range total_users, v.user_dcg i * U i g ∧
    v.group_precision g = ∑ i in Finset.range total_users, v.user_precision i * U i g ∧
    v.group_recall g = ∑ i in Finset.range total_users, v.user_recall i * U i g) ∧
  (∀ g ∈ Finset.range no_item_groups,
    v.item_group g = ∑ i in Finset.range total_users,
      ∑ j in Finset.range topk, v.W i j * Ihelp i j g) ∧
  (∀ i ∈ Finset.range total_users, ∀ j ∈ Finset.range topk, v.W i j ≤ 1) ∧
  (∀ i ∈ Finset.range total_users, ∀ j ∈ Finset.range topk, 0 ≤ v.W i j)

/-- RHS of the `user_recall` constraint row:
`xsum(W[i][j]*Ahelp[i][j] for j) / len(train_checkins[i])`.  Python raises
`ZeroDivisionError` when the user has no training interactions; embedded as
`Except`. -/
def user_recall_rhs (train_checkins : ℕ → Finset ℕ) (W Ahelp : ℕ → ℕ → ℚ)
    (topk i : ℕ) : Except String ℚ :=
  if (train_checkins i).card = 0 then Except.error "ZeroDivisionError"
  else Except.ok
    ((∑ j in Finset.range topk, W i j * Ahelp i j) / ((train_checkins i).card : ℚ))

/-- The statuses `model.optimize()` can report (python-mip `OptimizationStatus`). -/
inductive OptimizationStatus
  | OPTIMAL
  | FEASIBLE
  | INFEASIBLE
  | UNBOUNDED
  | NO_SOLUTION_FOUND
  | ERROR

/-- The tail of `fairness_optimisation`: `model.optimize()` is called, its status
is not bound to anything, and `(W, item_group)` is returned unconditionally —
there is no failure path in the function's output. -/
def fairness_optimisation_return (status : OptimizationStatus)
    (W : ℕ → ℕ → ℚ) (item_group : ℕ → ℚ) : (ℕ → ℕ → ℚ) × (ℕ → ℚ) :=
  (W, item_group)

/-- The driver body for one fairness run:
`W, item_group = fairness_optimisation(...)` followed by an unconditional
`write_results()`.  The second component counts the metrics rows written. -/
def run_fair_mode (status : OptimizationStatus) (W : ℕ → ℕ → ℚ)
    (item_group : ℕ → ℚ) : ((ℕ → ℕ → ℚ) × (ℕ → ℚ)) × ℕ :=
  (fairness_optimisation_return status W item_group, 1)

/-- The `KeyError` message `read_train_data` produces for a line whose user id or
(otherwise) item id is missing from the id maps. -/
def train_err_msg (uid_map : String → Option ℕ) (line : RawLine) : String :=
  match uid_map line.1 with
  | none => "KeyError uid"
  | some _ => "KeyError iid"

/-- Concrete score matrix for the objective counterexample: item 1 scores 1,
every other item scores 0. -/
def c1_S : ℕ → ℕ → ℚ := fun _ j => if j = 1 then 1 else 0

/-- Concrete candidate matrix for the objective counterexample: the candidate at
every slot is item 1 (the high-scoring item). -/
def c1_P : ℕ → ℕ → ℕ := fun _ _ => 1

/-- Concrete selection for the objective counterexample: every slot selected. -/
def c1_W : ℕ → ℕ → ℚ := fun _ _ => 1

/-- Concrete candidate matrix for the relevance-index counterexample. -/
def c2_P : ℕ → ℕ → ℕ := fun _ _ => 5

/-- Concrete held-out ground truth: user 0 interacted with item 5. -/
def c2_ground_truth : ℕ → Finset ℕ := fun _ => {5}

/-- Concrete training interactions: user 0 has none (item 5 is test-only). -/
def c2_train_checkins : ℕ → Finset ℕ := fun _ => ∅

/-- Concrete ground truth for the division-guard counterexample. -/
def c6_ground_truth : ℕ → Finset ℕ := fun _ => {1}

/-- Concrete solved selection with no slot at value 1 (an all-relaxed solution),
so the extracted per-user selected list is empty. -/
def c6_W : ℕ → ℕ → ℚ := fun _ _ => 0

/-- Concrete candidate matrix for the division-guard counterexample. -/
def c6_P : ℕ → ℕ → ℕ := fun _ j => j

/-- Witness candidate matrix: candidate at slot `j` is item `j`. -/
def w_P : ℕ → ℕ → ℕ := fun _ j => j

/-- Witness short-head item set: items 0..9. -/
def w_shorthead : Finset ℕ := Finset.range 10

/-- Witness long-tail item set: empty. -/
def w_longtail : Finset ℕ := ∅

/-- Witness selection: the first ten slots of the single user are selected. -/
def w_W : ℕ → ℕ → ℚ := fun _ j => if j < 10 then 1 else 0

/-- Witness relevance matrix: no candidate is relevant. -/
def w_Ahelp : ℕ → ℕ → ℚ := fun _ _ => 0

/-- Witness item-group indicator built by `read_item_index` for one user and ten
candidate slots. -/
def w_Ihelp : ℕ → ℕ → ℕ → ℚ := read_item_index 1 10 w_P w_shorthead w_longtail

/-- Witness user-group matrix: the single user belongs to no group. -/
def w_U : ℕ → ℕ → ℚ := fun _ _ => 0

/-- Witness training interactions: the single user interacted with item 0. -/
def w_train_checkins : ℕ → Finset ℕ := fun _ => {0}

/-- Witness solver assignment satisfying every constraint of the model with one
user and ten candidate slots. -/
def w_vars : FairnessVars :=
  ⟨w_W, fun _ => 0, fun _ => 0, fun _ => 0, fun g => if g = 0 then 10 else 0,
   fun _ => 0, fun _ => 0, fun _ => 0, fun _ => 0⟩

/-- Witness user id map with the single known external id `u1`. -/
def w_uid_map : String → Option ℕ := fun s => if s = "u1" then some 0 else none

/-- Witness item id map with the single known external id `i1`. -/
def w_iid_map : String → Option ℕ := fun s => if s = "i1" then some 0 else none

/-- Witness interaction line with both ids known. -/
def w_good_line : RawLine := ("u1", "i1", "1")

/-- Witness interaction line whose user id is unknown. -/
def w_bad_line : RawLine := ("u2", "i1", "1")

/-- C1: the claim says the mode-N objective term is `S[i][P[i][j]] * W[i][j]`.
The code builds `S[i][j] * W[i][j]`, indexed by the slot position: with one user,
one slot, candidate `P[0][0] = 1`, score row `S[0] = [0, 1]` and `W[0][0] = 1`,
the built objective is `S[0][0] = 0` while the claimed objective is
`S[0][P[0][0]] = 1`. -/
theorem c1_objective_indexed_by_slot :
    fairness_objective FairMode.N 0 0 1 1 c1_S c1_W (fun _ => 0) (fun _ => 0) = 0 ∧
    objective_N_spec 1 1 c1_S c1_P c1_W = 1 ∧
    fairness_objective FairMode.N 0 0 1 1 c1_S c1_W (fun _ => 0) (fun _ => 0) ≠
      objective_N_spec 1 1 c1_S c1_P c1_W := by
  refine ⟨?_, ?_, ?_⟩ <;>
    norm_num [fairness_objective, objective_N_spec, c1_S, c1_P, c1_W]

/-- C2: the claim says `Ahelp[i][j] = 1` iff `P[i][j]` is in user `i`'s held-out
ground-truth set.  The main loop builds `Ahelp` from `train_checkins` (the
training interactions): for a user whose ground truth contains item 5 but whose
training set is empty, the built `Ahelp[0][0]` is 0 although `P[0][0] = 5` is in
the ground truth, falsifying the claimed equivalence. -/
theorem c2_ahelp_built_from_train_checkins :
    load_ground_truth_index 1 1 c2_P c2_train_checkins 0 0 = 0 ∧
    c2_P 0 0 ∈ c2_ground_truth 0 := by
  refine ⟨?_, ?_⟩ <;> decide

/-- C4: the claim says a solver failure is surfaced as a distinct condition and no
metrics are written.  `fairness_optimisation` discards the status of
`model.optimize()` and returns `(W, item_group)` for every status, and the driver
invokes `write_results()` (one metrics row) unconditionally: the run with a
failed status is indistinguishable from a successful one. -/
theorem c4_solver_status_discarded :
    (∀ (status : OptimizationStatus) (W : ℕ → ℕ → ℚ) (item_group : ℕ → ℚ),
      fairness_optimisation_return status W item_group = (W, item_group)) ∧
    (∀ (W : ℕ → ℕ → ℚ) (item_group : ℕ → ℚ),
      run_fair_mode OptimizationStatus.NO_SOLUTION_FOUND W item_group =
        ((W, item_group), 1) ∧
      run_fair_mode OptimizationStatus.NO_SOLUTION_FOUND W item_group =
        run_fair_mode OptimizationStatus.OPTIMAL W item_group) :=
  ⟨fun _ _ _ => rfl, fun _ _ => ⟨rfl, rfl⟩⟩

/-- C9: for an in-range (user, slot) pair, the two item-group indicator entries
built by `read_item_index` never sum past 1, and a candidate contained in both
the short-head and the long-tail id sets is assigned to group 0 only (the `elif`
gives short-head priority), so no candidate is counted in both exposure
aggregates. -/
theorem c9_ihelp_at_most_one_group (total_users topk : ℕ) (P : ℕ → ℕ → ℕ)
    (sh lt : Finset ℕ) (uid lid : ℕ) (huid : uid < total_users)
    (hlid : lid < topk) :
    read_item_index total_users topk P sh lt uid lid 0 +
      read_item_index total_users topk P sh lt uid lid 1 ≤ 1 ∧
    (P uid lid ∈ sh → P uid lid ∈ lt →
      read_item_index total_users topk P sh lt uid lid 0 = 1 ∧
      read_item_index total_users topk P sh lt uid lid 1 = 0) := by
  constructor
  · by_cases h1 : P uid lid ∈ sh
    · norm_num [read_item_index, huid, hlid, h1]
    · by_cases h2 : P uid lid ∈ lt <;>
        norm_num [read_item_index, huid, hlid, h1, h2]
  · intro h1 _
    norm_num [read_item_index, huid, hlid, h1]

/-- Witness for C9 at a concrete overlapping instance: item 3 is in both group
files, and the candidate gets indicator `(1, 0)`. -/
theorem c9_ihelp_at_most_one_group_witness :
    read_item_index 1 1 (fun _ _ => 3) {3} {3} 0 0 0 = 1 ∧
    read_item_index 1 1 (fun _ _ => 3) {3} {3} 0 0 1 = 0 :=
  (c9_ihelp_at_most_one_group 1 1 (fun _ _ => 3) {3} {3} 0 0 (by decide)
    (by decide)).2 (by decide) (by decide)

/-- Accumulating a real-valued term over a list with `foldl` equals the starting
value plus the sum of the mapped list. -/
theorem foldl_add_eq_map_sum (f : ℕ → ℝ) (l : List ℕ) (a : ℝ) :
    l.foldl (fun acc x => acc + f x) a = a + (l.map f).sum := by
  induction l generalizing a with
  | nil => simp
  | cons x xs ih => simp [List.foldl_cons, ih, add_assoc]

/-- C7: the novelty score is the sum over the predicted items of their
self-information `-log2(pop[item]/u)` (items absent from the popularity table
contribute exactly 0 and never raise), divided by `k`; at the spec's example
`pop = (item7, 10)`, `u = 100`, `predicted = [item7]`, `k = 1` the score is
`-log2(10/100)`. -/
theorem c7_novelty_formula :
    (∀ (predicted : List ℕ) (pop : ℕ → Option ℕ) (u k : ℕ),
      novelty predicted pop u k =
        (predicted.map (item_novelty_value pop u)).sum / (k : ℝ)) ∧
    (∀ (pop : ℕ → Option ℕ) (u k item : ℕ) (rest : List ℕ), pop item = none →
      novelty (item :: rest) pop u k = novelty rest pop u k) ∧
    novelty [7] (fun i => if i = 7 then some 10 else none) 100 1 =
      -Real.logb 2 ((10 : ℝ) / 100) := by
  refine ⟨?_, ?_, ?_⟩
  · intro predicted pop u k
    unfold novelty
    rw [foldl_add_eq_map_sum, zero_add]
  · intro pop u k item rest h
    unfold novelty
    simp [List.foldl_cons, item_novelty_value, h]
  · unfold novelty item_novelty_value
    norm_num

/-- Witness for C7's absent-item conjunct: an item missing from the popularity
table changes nothing about the accumulated self-information. -/
theorem c7_novelty_formula_witness :
    novelty [5] (fun _ => none) 100 10 = novelty [] (fun _ => none) 100 10 :=
  c7_novelty_formula.2.1 (fun _ => none) 100 10 5 [] rfl

/-- C6: the claim says every per-user computation with a possibly-zero
denominator checks it and excludes the user.  The code has no such guard:
`precisionk` divides by the (possibly zero) length of the selected list,
`recallk` by the (possibly zero) ground-truth size, the `user_recall` constraint
row by the (possibly zero) training-interaction count, and `metric_per_group`
processes every user that is a ground-truth key — a user whose extracted
selected list is empty reaches the metric calls and they raise instead of being
excluded. -/
theorem c6_no_division_guard :
    precisionk {1} [] = Except.error "ZeroDivisionError" ∧
    recallk ∅ [5] = Except.error "ZeroDivisionError" ∧
    user_recall_rhs (fun _ => ∅) (fun _ _ => 0) (fun _ _ => 1) 50 0 =
      Except.error "ZeroDivisionError" ∧
    metric_per_group_user c6_ground_truth {0} c6_W c6_P 0 =
      some (Except.error "IndexError") := by
  have hsel : selected_items c6_W c6_P 0 = [] := by decide
  refine ⟨rfl, rfl, rfl, ?_⟩
  simp only [metric_per_group_user, hsel, ndcgk, Finset.mem_singleton,
    if_pos rfl]
  rfl

/-- Rounding a nonnegative rational to the nearest integer stays nonnegative. -/
theorem pyRound2_int_nonneg (y : ℚ) (hy : 0 ≤ y) : 0 ≤ pyRound2_int y := by
  have h0 : 0 ≤ ⌊y⌋ := Int.floor_nonneg.mpr hy
  unfold pyRound2_int
  split_ifs <;> omega

/-- Rounding to the nearest integer never exceeds an integer upper bound of the
argument. -/
theorem pyRound2_int_le (y : ℚ) (B : ℤ) (hB : y ≤ (B : ℚ)) :
    pyRound2_int y ≤ B := by
  have hfl : ⌊y⌋ ≤ B := by
    have := Int.floor_le_floor hB
    simpa using this
  have hup : ¬(y - ⌊y⌋ < 1 / 2) → ⌊y⌋ + 1 ≤ B := by
    intro h
    push_neg at h
    have hflq : (⌊y⌋ : ℚ) + 1 / 2 ≤ y := by linarith
    have : (⌊y⌋ : ℚ) < (B : ℚ) := by linarith
    have : ⌊y⌋ < B := by exact_mod_cast this
    omega
  unfold pyRound2_int
  split_ifs with h1 h2 h3
  · exact hfl
  · exact hup h1
  · exact hfl
  · exact hup h1

/-- `pyRound2` maps `[0, 100]` into `[0, 100]`. -/
theorem pyRound2_mem_Icc (x : ℚ) (h0 : 0 ≤ x) (h1 : x ≤ 100) :
    0 ≤ pyRound2 x ∧ pyRound2 x ≤ 100 := by
  unfold pyRound2
  constructor
  · have hn := pyRound2_int_nonneg (x * 100) (by positivity)
    have : (0 : ℚ) ≤ (pyRound2_int (x * 100) : ℚ) := by exact_mod_cast hn
    linarith
  · have hle : pyRound2_int (x * 100) ≤ 10000 :=
      pyRound2_int_le (x * 100) 10000 (by push_cast; nlinarith)
    have : (pyRound2_int (x * 100) : ℚ) ≤ 10000 := by exact_mod_cast hle
    linarith

/-- C8: for a non-empty collection of selected lists whose items all occur in the
(non-empty) training catalog, `catalog_coverage` returns a value in `[0, 100]`. -/
theorem c8_catalog_coverage_in_range (predicted : List (List ℕ))
    (catalog : Finset ℕ) (hne : predicted ≠ [])
    (hsub : ∀ i ∈ predicted.join, i ∈ catalog) (hcat : 0 < catalog.card) :
    0 ≤ catalog_coverage predicted catalog ∧
      catalog_coverage predicted catalog ≤ 100 := by
  have hsubset : predicted.join.toFinset ⊆ catalog := by
    intro i hi
    exact hsub i (List.mem_toFinset.mp hi)
  have hL : predicted.join.toFinset.card ≤ catalog.card :=
    Finset.card_le_card hsubset
  have hc : (0 : ℚ) < (catalog.card : ℚ) := by exact_mod_cast hcat
  have hLq : ((predicted.join.toFinset.card : ℚ)) ≤ (catalog.card : ℚ) := by
    exact_mod_cast hL
  have hv0 : 0 ≤ ((predicted.join.toFinset.card : ℚ)) /
      ((catalog.card : ℚ) * 1) * 100 := by positivity
  have hv1 : ((predicted.join.toFinset.card : ℚ)) /
      ((catalog.card : ℚ) * 1) * 100 ≤ 100 := by
    rw [mul_one]
    have hdiv : ((predicted.join.toFinset.card : ℚ)) / (catalog.card : ℚ) ≤ 1 :=
      (div_le_one hc).mpr hLq
    nlinarith
  exact pyRound2_mem_Icc _ hv0 hv1

/-- Witness for C8 at a concrete selection: two of three catalog items covered,
coverage `66.67`, inside `[0, 100]`. -/
theorem c8_catalog_coverage_in_range_witness :
    0 ≤ catalog_coverage [[1, 2]] {1, 2, 3} ∧
      catalog_coverage [[1, 2]] {1, 2, 3} ≤ 100 :=
  c8_catalog_coverage_in_range [[1, 2]] {1, 2, 3} (by decide) (by decide)
    (by decide)

/-- `read_train_step` on a line with an unknown id fails with the `KeyError` of
the first missing lookup, whatever the accumulated state. -/
theorem read_train_step_error (uid_map iid_map : String → Option ℕ)
    (line : RawLine) (h : ¬ line_known uid_map iid_map line)
    (st : (ℕ → Finset ℕ) × (ℕ → ℕ)) :
    read_train_step uid_map iid_map st line =
      Except.error (train_err_msg uid_map line) := by
  unfold read_train_step train_err_msg
  cases hu : uid_map line.1 with
  | none => rfl
  | some u =>
    cases hi : iid_map line.2.1 with
    | none => rfl
    | some i =>
      exact absurd ⟨by simp [line_known, hu], by simp [line_known, hi]⟩ h

/-- Folding `read_train_step` over lines whose ids are all known never fails. -/
theorem read_train_ok_of_known (uid_map iid_map : String → Option ℕ)
    (lines : List RawLine) :
    ∀ st, (∀ l ∈ lines, line_known uid_map iid_map l) →
      ∃ st2, lines.foldlM (read_train_step uid_map iid_map) st = Except.ok st2 := by
  induction lines with
  | nil =>
    intro st _
    exact ⟨st, rfl⟩
  | cons l ls ih =>
    intro st h
    obtain ⟨hu, hi⟩ := h l (List.mem_cons_self l ls)
    obtain ⟨u, hu2⟩ := Option.isSome_iff_exists.mp hu
    obtain ⟨i, hi2⟩ := Option.isSome_iff_exists.mp hi
    have hstep : read_train_step uid_map iid_map st l =
        Except.ok (Function.update st.1 u (insert i (st.1 u)),
          Function.update st.2 i (st.2 i + 1)) := by
      unfold read_train_step
      rw [hu2, hi2]
    rw [List.foldlM_cons, hstep]
    exact ih _ (fun l2 hl2 => h l2 (List.mem_cons_of_mem _ hl2))

/-- The per-line update of `read_ground_truth` leaves the dictionary unchanged on
a line with an unknown id. -/
theorem read_ground_truth_step_skip (uid_map iid_map : String → Option ℕ)
    (bad : RawLine) (hbad : ¬ line_known uid_map iid_map bad)
    (gt : ℕ → Finset ℕ) :
    (match uid_map bad.1, iid_map bad.2.1 with
     | some uid, some iid => Function.update gt uid (insert iid (gt uid))
     | _, _ => gt) = gt := by
  cases hu : uid_map bad.1 with
  | none => rfl
  | some u =>
    cases hi : iid_map bad.2.1 with
    | none => rfl
    | some i =>
      exact absurd ⟨by simp [line_known, hu], by simp [line_known, hi]⟩ hbad

/-- C10: `read_train_data` looks every id up unconditionally, so the first line
with an id missing from the id maps makes it fail with that lookup's `KeyError`;
`read_ground_truth` and `read_user_groups` instead test membership first and
produce the same result as if the unknown line were absent. -/
theorem c10_train_reader_raises (uid_map iid_map : String → Option ℕ)
    (pre post : List RawLine) (bad : RawLine)
    (hpre : ∀ l ∈ pre, line_known uid_map iid_map l)
    (hbad : ¬ line_known uid_map iid_map bad) :
    read_train_data uid_map iid_map (pre ++ bad :: post) =
      Except.error (train_err_msg uid_map bad) ∧
    read_ground_truth uid_map iid_map (pre ++ bad :: post) =
      read_ground_truth uid_map iid_map (pre ++ post) ∧
    (∀ (gid : ℕ) (U : ℕ → ℕ → ℚ) (upre upost : List String) (ubad : String),
      uid_map ubad = none →
      read_user_groups uid_map (upre ++ ubad :: upost) gid U =
        read_user_groups uid_map (upre ++ upost) gid U) := by
  refine ⟨?_, ?_, ?_⟩
  · unfold read_train_data
    obtain ⟨st2, hok⟩ :=
      read_train_ok_of_known uid_map iid_map pre (fun _ => ∅, fun _ => 0) hpre
    rw [List.foldlM_append, hok]
    show (bad :: post).foldlM (read_train_step uid_map iid_map) st2 = _
    rw [List.foldlM_cons, read_train_step_error uid_map iid_map bad hbad st2]
    rfl
  · unfold read_ground_truth
    rw [List.foldl_append, List.foldl_append, List.foldl_cons]
    congr 1
    exact read_ground_truth_step_skip uid_map iid_map bad hbad _
  · intro gid U upre upost ubad hub
    unfold read_user_groups
    rw [List.foldl_append, List.foldl_append, List.foldl_cons]
    congr 1
    show (match uid_map ubad with
          | some uid =>
            (insert uid (List.foldl _ (∅, U) upre).1,
             fun u g => if u = uid ∧ g = gid then 1
                        else (List.foldl _ (∅, U) upre).2 u g)
          | none => List.foldl _ (∅, U) upre) = _
    rw [hub]

/-- Witness for C10: with id maps knowing only `u1`/`i1`, the train reader fails
on the line `(u2, i1, 1)` with the user-id `KeyError`, while the ground-truth
reader returns exactly what it returns without that line. -/
theorem c10_train_reader_raises_witness :
    read_train_data w_uid_map w_iid_map [w_good_line, w_bad_line] =
      Except.error (train_err_msg w_uid_map w_bad_line) ∧
    read_ground_truth w_uid_map w_iid_map [w_good_line, w_bad_line] =
      read_ground_truth w_uid_map w_iid_map [w_good_line] :=
  have h := c10_train_reader_raises w_uid_map w_iid_map [w_good_line] []
    w_bad_line (by decide) (by decide)
  ⟨h.1, h.2.1⟩

/-- The concrete witness assignment satisfies every constraint of the model with
one user, ten candidate slots and the ten candidates all short-head. -/
theorem w_feasible :
    FairnessConstraints 1 10 w_Ahelp w_Ihelp w_U w_train_checkins w_vars := by
  refine ⟨?_, ?_, ?_, ?_, ?_, ?_⟩
  · intro i hi
    fin_cases hi
    have hone : ∀ j ∈ Finset.range 10, w_vars.W 0 j = 1 := by
      intro j hj
      simp [w_vars, w_W, Finset.mem_range.mp hj]
    rw [Finset.sum_congr rfl hone]
    norm_num
  · intro i hi
    fin_cases hi
    norm_num [w_vars, w_W, w_Ahelp, w_train_checkins]
  · intro g hg
    fin_cases hg <;> norm_num [w_vars, w_U]
  · intro g hg
    fin_cases hg <;>
      norm_num [w_vars, w_W, w_Ihelp, read_item_index, w_P, w_shorthead,
        w_longtail, Finset.sum_range_succ, Finset.mem_range]
  · intro i _ j hj
    rw [Finset.mem_range] at hj
    simp [w_vars, w_W, hj]
  · intro i _ j hj
    rw [Finset.mem_range] at hj
    simp [w_vars, w_W, hj]

/-- C3: every feasible assignment of the optimisation model — in any of the four
fairness modes, which share the constraint set and differ only in the objective
— gives every user's row of `W` the exact sum `10` (the literal `k = 10` of the
source), so in particular the solved `W` does. -/
theorem c3_row_sum_eq_k (fairness : FairMode) (total_users topk : ℕ)
    (Ahelp : ℕ → ℕ → ℚ) (Ihelp : ℕ → ℕ → ℕ → ℚ) (U : ℕ → ℕ → ℚ)
    (train_checkins : ℕ → Finset ℕ) (v : FairnessVars)
    (h : FairnessConstraints total_users topk Ahelp Ihelp U train_checkins v)
    (i : ℕ) (hi : i < total_users) :
    ∑ j in Finset.range topk, v.W i j = 10 :=
  h.1 i (Finset.mem_range.mpr hi)

/-- Witness for C3 at the concrete feasible instance. -/
theorem c3_row_sum_eq_k_witness :
    ∑ j in Finset.range 10, w_vars.W 0 j = 10 :=
  c3_row_sum_eq_k FairMode.N 1 10 w_Ahelp w_Ihelp w_U w_train_checkins w_vars
    w_feasible 0 (by decide)

/-- C5: in any feasible assignment whose item-group indicator is the one
`read_item_index` builds, the two exposure aggregates sum to `totalUsers * 10`
when every candidate is short-head or long-tail; in general, for a binary `W`,
they sum to `totalUsers * 10` minus the number of selected candidate slots whose
item is in neither group. -/
theorem c5_item_group_partition (total_users topk : ℕ) (Ahelp : ℕ → ℕ → ℚ)
    (P : ℕ → ℕ → ℕ) (sh lt : Finset ℕ) (U : ℕ → ℕ → ℚ)
    (train_checkins : ℕ → Finset ℕ) (v : FairnessVars)
    (h : FairnessConstraints total_users topk Ahelp
      (read_item_index total_users topk P sh lt) U train_checkins v) :
    ((∀ i ∈ Finset.range total_users, ∀ j ∈ Finset.range topk,
        P i j ∈ sh ∪ lt) →
      v.item_group 0 + v.item_group 1 = (total_users : ℚ) * 10) ∧
    ((∀ i ∈ Finset.range total_users, ∀ j ∈ Finset.range topk,
        v.W i j = 0 ∨ v.W i j = 1) →
      v.item_group 0 + v.item_group 1 = (total_users : ℚ) * 10 -
        (((Finset.range total_users ×ˢ Finset.range topk).filter
            (fun p => v.W p.1 p.2 = 1 ∧ P p.1 p.2 ∉ sh ∧ P p.1 p.2 ∉ lt)).card
          : ℚ)) := by
  have h4 := h.2.2.2.1
  have hig0 := h4 0 (by norm_num [no_item_groups])
  have hig1 := h4 1 (by norm_num [no_item_groups])
  have hcard : ∑ i in Finset.range total_users, ∑ j in Finset.range topk,
      v.W i j = (total_users : ℚ) * 10 := by
    rw [Finset.sum_congr rfl (fun i hi => h.1 i hi)]
    simp [Finset.sum_const, Finset.card_range, nsmul_eq_mul]
  have hsum : v.item_group 0 + v.item_group 1 =
      ∑ i in Finset.range total_users, ∑ j in Finset.range topk,
        v.W i j * (if P i j ∈ sh ∪ lt then (1 : ℚ) else 0) := by
    rw [hig0, hig1, ← Finset.sum_add_distrib]
    refine Finset.sum_congr rfl (fun i hi => ?_)
    rw [← Finset.sum_add_distrib]
    refine Finset.sum_congr rfl (fun j hj => ?_)
    rw [← mul_add]
    congr 1
    rw [Finset.mem_range] at hi hj
    by_cases h1 : P i j ∈ sh
    · simp [read_item_index, hi, hj, h1, Finset.mem_union]
    · by_cases h2 : P i j ∈ lt <;>
        simp [read_item_index, hi, hj, h1, h2, Finset.mem_union]
  constructor
  · intro hall
    rw [hsum]
    rw [Finset.sum_congr rfl (fun i hi => Finset.sum_congr rfl (fun j hj => by
      rw [if_pos (hall i hi j hj), mul_one]))]
    exact hcard
  · intro hbin
    rw [hsum]
    have hstep : ∀ i ∈ Finset.range total_users, ∀ j ∈ Finset.range topk,
        v.W i j * (if P i j ∈ sh ∪ lt then (1 : ℚ) else 0) =
          v.W i j - (if P i j ∉ sh ∧ P i j ∉ lt then v.W i j else 0) := by
      intro i _ j _
      by_cases hm : P i j ∈ sh ∪ lt
      · have hng : ¬(P i j ∉ sh ∧ P i j ∉ lt) := by
          rw [Finset.mem_union] at hm
          tauto
        rw [if_pos hm, if_neg hng, mul_one, sub_zero]
      · have hg : P i j ∉ sh ∧ P i j ∉ lt := by
          rw [Finset.mem_union] at hm
          tauto
        rw [if_neg hm, if_pos hg, mul_zero, sub_self]
    rw [Finset.sum_congr rfl
      (fun i hi => Finset.sum_congr rfl (hstep i hi))]
    rw [Finset.sum_congr rfl (fun i _ => Finset.sum_sub_distrib),
      Finset.sum_sub_distrib, hcard]
    congr 1
    rw [← Finset.sum_product']
    have hpt : ∀ p ∈ Finset.range total_users ×ˢ Finset.range topk,
        (if P p.1 p.2 ∉ sh ∧ P p.1 p.2 ∉ lt then v.W p.1 p.2 else 0) =
          if v.W p.1 p.2 = 1 ∧ P p.1 p.2 ∉ sh ∧ P p.1 p.2 ∉ lt
          then (1 : ℚ) else 0 := by
      intro p hp
      rcases Finset.mem_product.mp hp with ⟨hp1, hp2⟩
      rcases hbin p.1 hp1 p.2 hp2 with h0 | h1w
      · rw [h0]
        norm_num
      · rw [h1w]
        norm_num
    rw [Finset.sum_congr rfl hpt, Finset.sum_boole]

/-- Witness for C5 at the concrete feasible instance: every candidate is
short-head and the two aggregates sum to `1 * 10`. -/
theorem c5_item_group_partition_witness :
    w_vars.item_group 0 + w_vars.item_group 1 = ((1 : ℕ) : ℚ) * 10 :=
  (c5_item_group_partition 1 10 w_Ahelp w_P w_shorthead w_longtail w_U
      w_train_checkins w_vars w_feasible).1
    (by
      intro i _ j hj
      simpa [w_P, w_shorthead, w_longtail, Finset.mem_union] using
        Finset.mem_range.mp hj)

end BrecSys
